import Mathlib

/-!
Shallow embedding of the instruction decoder from src/cpu/instruction.rs
of the oni Game Boy emulator.

The decoder reads one opcode byte from a byte-stream cursor, classifies it
with a single large match, fetches 0, 1 or 2 trailing immediate bytes, and
either produces an Instruction value or fails.  Machine bytes are modelled
as Nat values; a std::io read failure (UnexpectedEof) is the
truncatedStream error; the two eyre error messages of the source are the
two remaining error constructors; a reached unreachable branch of the
source is modelled as the distinguished panic outcome.
-/

namespace Oni

/-- Registers of the CPU (crate::cpu::Register): the 8-bit registers and the
16-bit composite registers used by the decoder. -/
inductive Register where
  | A | B | C | D | E | H | L
  | BC | DE | HL | SP | AF
  deriving DecidableEq, Repr

/-- Condition-code flags consulted by conditional instructions
(crate::cpu::Flag). -/
inductive Flag where
  | Z | CY
  deriving DecidableEq, Repr

/-- Auto-increment / auto-decrement annotation on a register operand. -/
inductive MathOperation where
  | Increment
  | Decrement
  deriving DecidableEq, Repr

set_option maxHeartbeats 2000000 in
/-- The closed union of decoded instructions, one constructor per variant of
the source enum Instruction, with the same field order. u8 and u16 fields
are Nat. -/
inductive Instruction where
  | NoOperation
  | Stop
  | Halt
  | Reset (location : Nat)
  | LoadOneByteOfDataIntoRegister (data : Nat) (register : Register)
      (treat_value_in_register_as_memory_address : Bool)
  | LoadTwoBytesOfDataIntoRegister (data : Nat) (register : Register)
  | LoadValueOfFirstRegisterIntoSecondRegister
      (register1 : Register) (register2 : Register)
      (treat_value_in_first_register_as_memory_address : Bool)
      (treat_value_in_second_register_as_memory_address : Bool)
      (operation_on_first_register : Option MathOperation)
      (operation_on_second_register : Option MathOperation)
  | IncrementValueInRegister (register : Register)
      (treat_value_in_register_as_memory_address : Bool)
  | DecrementValueInRegister (register : Register)
      (treat_value_in_register_as_memory_address : Bool)
  | AbsoluteJump (address : Nat)
  | AbsoluteJumpIfFlagIsZero (flag : Flag) (address : Nat)
  | AbsoluteJumpIfFlagIsOne (flag : Flag) (address : Nat)
  | AbsoluteJumpToAddressInRegister (register : Register)
  | RelativeJump (steps : Nat)
  | RelativeJumpIfFlagIsZero (flag : Flag) (steps : Nat)
  | RelativeJumpIfFlagIsOne (flag : Flag) (steps : Nat)
  | Return
  | ReturnIfFlagIsZero (flag : Flag)
  | ReturnIfFlagIsOne (flag : Flag)
  | ReturnAfterInterrupt
  | Call (address : Nat)
  | CallIfFlagIsZero (flag : Flag) (address : Nat)
  | CallIfFlagIsOne (flag : Flag) (address : Nat)
  | RotateContentOfRegisterToLeft (register : Register)
  | RotateContentOfRegisterToLeftThroughCarryFlag (register : Register)
  | RotateContentOfRegisterToRight (register : Register)
  | RotateContentOfRegisterToRightThroughCarryFlag (register : Register)
  | Not (register : Register)
  | SetCarryFlag
  | NotCarryFlag
  | AdjustAccumulatorToBCDNumber
  | AddValueOfSecondRegisterToFirstRegister
      (register1 : Register) (register2 : Register)
      (treat_value_in_second_register_as_memory_address : Bool)
  | AddOneByteToAccumulator (value : Nat)
  | AddOneByteAndCarryFlagToAccumulator (value : Nat)
  | SubtractValueOfSecondRegisterFromFirstRegister
      (register1 : Register) (register2 : Register)
      (treat_value_in_second_register_as_memory_address : Bool)
  | SubtractOneByteFromAccumulator (value : Nat)
  | SubtractOneByteAndCarryFlagFromAccumulator (value : Nat)
  | LogicalAndOnAccumulatorAndRegister (register : Register)
      (treat_value_in_register_as_memory_address : Bool)
  | LogicalAndOnAccumulatorAndOneByte (value : Nat)
  | LogicalOrOnAccumulatorAndRegister (register : Register)
      (treat_value_in_register_as_memory_address : Bool)
  | LogicalOrOnAccumulatorAndOneByte (value : Nat)
  | LogicalXorOnAccumulatorAndRegister (register : Register)
      (treat_value_in_register_as_memory_address : Bool)
  | LogicalXorOnAccumulatorAndOneByte (value : Nat)
  | CompareAccumulatorAndRegister (register : Register)
      (treat_value_in_register_as_memory_address : Bool)
  | CompareAccumulatorAndOneByte (value : Nat)
  | PushValueOfRegisterOntoStack (register : Register)
  | PopValueFromStackIntoRegister (register : Register)
  | ResetInterruptMasterEnableFlag
  | SetInterruptMasterEnableFlag
  | StoreAccumulatorInMemory (address : Nat)
  | LoadAccumulatorFromMemory (address : Nat)
  | StoreAccumulatorInMemorySpecifiedByRegisterC
  | LoadAccumulatorFromMemorySpecifiedByRegisterC
  | StoreStackPointerInMemory (address : Nat)
  | StoreContentOfRegisterHLInStackPointer
  | AddValueToStackPointer
  | AddValueToStackPointerAndStoreResultInRegisterHL
  deriving Repr

/-- Byte stream cursor: the std::io::Cursor over the owned byte buffer,
holding the bytes and the current read position. -/
structure Cursor where
  data : List Nat
  pos : Nat
  deriving DecidableEq, Repr

/-- read_u8 of the cursor: the byte at the current position, advancing the
position by one; none (an end-of-stream io error in the source) when no byte
remains, leaving the position unchanged. -/
def read_u8 (m : Cursor) : Option Nat × Cursor :=
  if m.pos < m.data.length then
    (some (m.data.getD m.pos 0), ⟨m.data, m.pos + 1⟩)
  else
    (none, m)

/-- The error kinds a decode call can fail with: the io end-of-stream error
from a cursor read, and the two eyre error values of the source, named after
their messages (Unknown 16 bit opcode, Unknown 8 bit opcode).  None of them
carries further data, exactly as in the source. -/
inductive DecodeError where
  | truncatedStream
  | unknown16BitOpcode
  | unknown8BitOpcode
  deriving DecidableEq, Repr

/-- Outcome of a decode call: a decoded instruction, a returned error, or a
reached unreachable branch of the source (a process abort there). -/
inductive DecodeResult where
  | ok (instruction : Instruction)
  | error (e : DecodeError)
  | panic
  deriving Repr

instance (r : DecodeResult) : Decidable (r = DecodeResult.panic) :=
  match r with
  | .panic => isTrue rfl
  | .ok _ => isFalse (fun h => DecodeResult.noConfusion h)
  | .error _ => isFalse (fun h => DecodeResult.noConfusion h)

instance (r : DecodeResult) (e : DecodeError) :
    Decidable (r = DecodeResult.error e) :=
  match r with
  | .ok _ => isFalse (fun h => DecodeResult.noConfusion h)
  | .panic => isFalse (fun h => DecodeResult.noConfusion h)
  | .error e2 =>
      if h : e2 = e then isTrue (by rw [h])
      else isFalse (fun hh => h (DecodeResult.error.inj hh))

/-- Run a continuation on one byte read from the cursor; a failed read
aborts the decode with the truncatedStream error (the question-mark operator
on read_u8 in the source). -/
def readU8 (m : Cursor) (k : Nat → Cursor → DecodeResult × Cursor) :
    DecodeResult × Cursor :=
  match read_u8 m with
  | (none, m2) => (DecodeResult.error DecodeError.truncatedStream, m2)
  | (some b, m2) => k b m2

/-- Run a continuation on a big-endian 16-bit value read from the cursor:
the first byte read gives bits 15..8, the second bits 7..0 (byteorder's
read_u16 with BigEndian).  On failure the position reflects the bytes that
were available, matching std::io::Cursor. -/
def readU16BE (m : Cursor) (k : Nat → Cursor → DecodeResult × Cursor) :
    DecodeResult × Cursor :=
  readU8 m fun hi m2 => readU8 m2 fun lo m3 => k ((hi <<< 8) ||| lo) m3

/-- Finish a match arm whose instruction construction may hit an
unreachable branch: some instruction becomes a successful decode, none is
the panic outcome. -/
def emit (m : Cursor) (i : Option Instruction) : DecodeResult × Cursor :=
  match i with
  | none => (DecodeResult.panic, m)
  | some instr => (DecodeResult.ok instr, m)

/-- The opcode classifier and operand fetch of Instruction::decode: the
match over the already-read opcode byte, with the arms of the source in
source order (range patterns become range conditions); it fetches trailing
immediate bytes where the arm requires them and produces the instruction,
an error, or the panic outcome where the source would reach an unreachable
branch. -/
def decodeOpcode (opcode : Nat) (m : Cursor) : DecodeResult × Cursor :=
  if opcode = 0x00 then (.ok .NoOperation, m)
  else if opcode = 0x10 then
    readU8 m fun _ m2 => (.ok .Stop, m2)
  else if opcode = 0x76 then (.ok .Halt, m)
  else if opcode = 0xC7 ∨ opcode = 0xD7 ∨ opcode = 0xE7 ∨ opcode = 0xF7 then
    (.ok (.Reset (((opcode >>> 4) - 0xC) * 2)), m)
  else if opcode = 0xCF ∨ opcode = 0xDF ∨ opcode = 0xEF ∨ opcode = 0xFF then
    (.ok (.Reset ((((opcode >>> 4) - 0xC) * 2) + 1)), m)
  else if opcode = 0xF3 then (.ok .ResetInterruptMasterEnableFlag, m)
  else if opcode = 0xFB then (.ok .SetInterruptMasterEnableFlag, m)
  else if opcode = 0x07 then (.ok (.RotateContentOfRegisterToLeft Register.A), m)
  else if opcode = 0x17 then
    (.ok (.RotateContentOfRegisterToLeftThroughCarryFlag Register.A), m)
  else if opcode = 0x0F then (.ok (.RotateContentOfRegisterToRight Register.A), m)
  else if opcode = 0x1F then
    (.ok (.RotateContentOfRegisterToRightThroughCarryFlag Register.A), m)
  else if opcode = 0x27 then (.ok .AdjustAccumulatorToBCDNumber, m)
  else if opcode = 0x02 ∨ opcode = 0x12 then
    emit m ((match opcode &&& 0xF0 with
      | 0x0 => some Register.BC
      | 0x1 => some Register.DE
      | _ => none).map fun r2 =>
      .LoadValueOfFirstRegisterIntoSecondRegister Register.A r2 false true none none)
  else if opcode = 0x22 ∨ opcode = 0x32 then
    emit m ((match opcode &&& 0xF0 with
      | 0x2 => some (some MathOperation.Increment)
      | 0x3 => some (some MathOperation.Decrement)
      | _ => (none : Option (Option MathOperation))).map fun op2 =>
      .LoadValueOfFirstRegisterIntoSecondRegister Register.A Register.HL false true none op2)
  else if opcode = 0xC3 then
    readU16BE m fun address m2 => (.ok (.AbsoluteJump address), m2)
  else if opcode = 0xC2 then
    readU16BE m fun address m2 => (.ok (.AbsoluteJumpIfFlagIsZero Flag.Z address), m2)
  else if opcode = 0xD2 then
    readU16BE m fun address m2 => (.ok (.AbsoluteJumpIfFlagIsZero Flag.CY address), m2)
  else if opcode = 0xCA then
    readU16BE m fun address m2 => (.ok (.AbsoluteJumpIfFlagIsOne Flag.Z address), m2)
  else if opcode = 0xDA then
    readU16BE m fun address m2 => (.ok (.AbsoluteJumpIfFlagIsOne Flag.CY address), m2)
  else if opcode = 0xE9 then (.ok (.AbsoluteJumpToAddressInRegister Register.HL), m)
  else if opcode = 0x18 then
    readU8 m fun steps m2 => (.ok (.RelativeJump steps), m2)
  else if opcode = 0x20 then
    readU8 m fun steps m2 => (.ok (.RelativeJumpIfFlagIsZero Flag.Z steps), m2)
  else if opcode = 0x30 then
    readU8 m fun steps m2 => (.ok (.RelativeJumpIfFlagIsZero Flag.CY steps), m2)
  else if opcode = 0x28 then
    readU8 m fun steps m2 => (.ok (.RelativeJumpIfFlagIsOne Flag.Z steps), m2)
  else if opcode = 0x38 then
    readU8 m fun steps m2 => (.ok (.RelativeJumpIfFlagIsOne Flag.CY steps), m2)
  else if opcode = 0xC9 then (.ok .Return, m)
  else if opcode = 0xC0 then (.ok (.ReturnIfFlagIsZero Flag.Z), m)
  else if opcode = 0xD0 then (.ok (.ReturnIfFlagIsZero Flag.CY), m)
  else if opcode = 0xD9 then (.ok .ReturnAfterInterrupt, m)
  else if opcode = 0xC8 then (.ok (.ReturnIfFlagIsOne Flag.Z), m)
  else if opcode = 0xD8 then (.ok (.ReturnIfFlagIsOne Flag.CY), m)
  else if opcode = 0xCD then
    readU16BE m fun address m2 => (.ok (.Call address), m2)
  else if opcode = 0xC4 then
    readU16BE m fun address m2 => (.ok (.CallIfFlagIsZero Flag.Z address), m2)
  else if opcode = 0xD4 then
    readU16BE m fun address m2 => (.ok (.CallIfFlagIsZero Flag.CY address), m2)
  else if opcode = 0xCC then
    readU16BE m fun address m2 => (.ok (.CallIfFlagIsOne Flag.Z address), m2)
  else if opcode = 0xDC then
    readU16BE m fun address m2 => (.ok (.CallIfFlagIsOne Flag.CY address), m2)
  else if opcode = 0x2F then (.ok (.Not Register.A), m)
  else if opcode = 0x37 then (.ok .SetCarryFlag, m)
  else if opcode = 0x3F then (.ok .NotCarryFlag, m)
  else if opcode = 0x03 ∨ opcode = 0x13 ∨ opcode = 0x23 ∨ opcode = 0x33 then
    emit m ((match opcode >>> 4 with
      | 0x0 => some Register.BC
      | 0x1 => some Register.DE
      | 0x2 => some Register.HL
      | 0x3 => some Register.SP
      | _ => none).map fun r => .IncrementValueInRegister r false)
  else if opcode = 0x04 ∨ opcode = 0x14 ∨ opcode = 0x24 ∨ opcode = 0x34 then
    emit m ((match opcode >>> 4 with
      | 0x0 => some Register.B
      | 0x1 => some Register.D
      | 0x2 => some Register.H
      | 0x3 => some Register.HL
      | _ => none).map fun r => .IncrementValueInRegister r (opcode == 0x34))
  else if opcode = 0x0C ∨ opcode = 0x1C ∨ opcode = 0x2C ∨ opcode = 0x3C then
    emit m ((match opcode >>> 4 with
      | 0x0 => some Register.C
      | 0x1 => some Register.E
      | 0x2 => some Register.L
      | 0x3 => some Register.A
      | _ => none).map fun r => .IncrementValueInRegister r false)
  else if opcode = 0x05 ∨ opcode = 0x15 ∨ opcode = 0x25 ∨ opcode = 0x35 then
    emit m ((match opcode >>> 4 with
      | 0x0 => some Register.B
      | 0x1 => some Register.D
      | 0x2 => some Register.H
      | 0x3 => some Register.HL
      | _ => none).map fun r => .DecrementValueInRegister r (opcode == 0x35))
  else if opcode = 0x0B ∨ opcode = 0x1B ∨ opcode = 0x2B ∨ opcode = 0x3B then
    emit m ((match opcode >>> 4 with
      | 0x0 => some Register.BC
      | 0x1 => some Register.DE
      | 0x2 => some Register.HL
      | 0x3 => some Register.SP
      | _ => none).map fun r => .DecrementValueInRegister r false)
  else if opcode = 0x0D ∨ opcode = 0x1D ∨ opcode = 0x2D ∨ opcode = 0x3D then
    emit m ((match opcode >>> 4 with
      | 0x0 => some Register.C
      | 0x1 => some Register.E
      | 0x2 => some Register.L
      | 0x3 => some Register.A
      | _ => none).map fun r => .DecrementValueInRegister r false)
  else if opcode = 0x06 ∨ opcode = 0x16 ∨ opcode = 0x26 ∨ opcode = 0x36 then
    readU8 m fun data m2 =>
    emit m2 ((match opcode >>> 4 with
      | 0x0 => some Register.B
      | 0x1 => some Register.D
      | 0x2 => some Register.H
      | 0x3 => some Register.HL
      | _ => none).map fun r =>
      .LoadOneByteOfDataIntoRegister data r (opcode == 0x36))
  else if opcode = 0x0E ∨ opcode = 0x1E ∨ opcode = 0x2E ∨ opcode = 0x3E then
    readU8 m fun data m2 =>
    emit m2 ((match opcode >>> 4 with
      | 0x0 => some Register.C
      | 0x1 => some Register.E
      | 0x2 => some Register.L
      | 0x3 => some Register.A
      | _ => none).map fun r =>
      .LoadOneByteOfDataIntoRegister data r false)
  else if opcode = 0x01 ∨ opcode = 0x11 ∨ opcode = 0x21 ∨ opcode = 0x31 then
    readU16BE m fun data m2 =>
    emit m2 ((match opcode >>> 4 with
      | 0x0 => some Register.BC
      | 0x1 => some Register.DE
      | 0x2 => some Register.HL
      | 0x3 => some Register.SP
      | _ => none).map fun r => .LoadTwoBytesOfDataIntoRegister data r)
  else if (0x40 ≤ opcode ∧ opcode ≤ 0x4F) ∨ (0x50 ≤ opcode ∧ opcode ≤ 0x5F) ∨
      (0x60 ≤ opcode ∧ opcode ≤ 0x6F) ∨ (0x70 ≤ opcode ∧ opcode ≤ 0x75) ∨
      (0x77 ≤ opcode ∧ opcode ≤ 0x7F) then
    emit m (
      (match opcode &&& 0xF with
        | 0x0 | 0x8 => some Register.B
        | 0x1 | 0x9 => some Register.C
        | 0x2 | 0xA => some Register.D
        | 0x3 | 0xB => some Register.E
        | 0x4 | 0xC => some Register.H
        | 0x5 | 0xD => some Register.L
        | 0x6 | 0xE => some Register.HL
        | 0x7 | 0xF => some Register.A
        | _ => none).bind fun r1 =>
      (if opcode &&& 0xF ≤ 0x7 then
        match opcode >>> 4 with
        | 0x4 => some Register.B
        | 0x5 => some Register.D
        | 0x6 => some Register.H
        | 0x7 => some Register.HL
        | _ => none
      else
        match opcode >>> 4 with
        | 0x4 => some Register.C
        | 0x5 => some Register.E
        | 0x6 => some Register.L
        | 0x7 => some Register.A
        | _ => none).map fun r2 =>
      .LoadValueOfFirstRegisterIntoSecondRegister r1 r2
        ((opcode &&& 0xF == 0x6) || (opcode &&& 0xF == 0xE))
        ((opcode >>> 4 == 0x7) && decide (opcode &&& 0xF < 0xE))
        none none)
  else if opcode = 0x0A ∨ opcode = 0x1A ∨ opcode = 0x2A ∨ opcode = 0x3A then
    emit m (
      (match opcode >>> 4 with
        | 0x0 => some Register.BC
        | 0x1 => some Register.DE
        | 0x2 | 0x3 => some Register.HL
        | _ => none).bind fun r1 =>
      (match opcode >>> 4 with
        | 0x0 | 0x1 => some none
        | 0x2 => some (some MathOperation.Increment)
        | 0x3 => some (some MathOperation.Decrement)
        | _ => (none : Option (Option MathOperation))).map fun op1 =>
      .LoadValueOfFirstRegisterIntoSecondRegister r1 Register.A true false op1 none)
  else if opcode = 0x09 ∨ opcode = 0x19 ∨ opcode = 0x29 ∨ opcode = 0x39 then
    emit m ((match opcode >>> 4 with
      | 0x0 => some Register.BC
      | 0x1 => some Register.DE
      | 0x2 => some Register.HL
      | 0x3 => some Register.SP
      | _ => none).map fun r2 =>
      .AddValueOfSecondRegisterToFirstRegister Register.HL r2 false)
  else if 0x80 ≤ opcode ∧ opcode ≤ 0x87 then
    emit m ((match opcode &&& 0xF with
      | 0x0 => some Register.B
      | 0x1 => some Register.C
      | 0x2 => some Register.D
      | 0x3 => some Register.E
      | 0x4 => some Register.H
      | 0x5 => some Register.L
      | 0x6 => some Register.HL
      | 0x7 => some Register.A
      | _ => none).map fun r1 =>
      .AddValueOfSecondRegisterToFirstRegister r1 Register.A (opcode == 0x86))
  else if opcode = 0xC6 then
    readU8 m fun value m2 => (.ok (.AddOneByteToAccumulator value), m2)
  else if opcode = 0xCE then
    readU8 m fun value m2 => (.ok (.AddOneByteAndCarryFlagToAccumulator value), m2)
  else if 0x90 ≤ opcode ∧ opcode ≤ 0x97 then
    emit m ((match opcode &&& 0xF with
      | 0x0 => some Register.B
      | 0x1 => some Register.C
      | 0x2 => some Register.D
      | 0x3 => some Register.E
      | 0x4 => some Register.H
      | 0x5 => some Register.L
      | 0x6 => some Register.HL
      | 0x7 => some Register.A
      | _ => none).map fun r1 =>
      .SubtractValueOfSecondRegisterFromFirstRegister r1 Register.A (opcode == 0x96))
  else if opcode = 0xD6 then
    readU8 m fun value m2 => (.ok (.SubtractOneByteFromAccumulator value), m2)
  else if opcode = 0xDE then
    readU8 m fun value m2 => (.ok (.SubtractOneByteAndCarryFlagFromAccumulator value), m2)
  else if 0xA0 ≤ opcode ∧ opcode ≤ 0xA7 then
    emit m ((match opcode &&& 0xF with
      | 0x0 => some Register.B
      | 0x1 => some Register.C
      | 0x2 => some Register.D
      | 0x3 => some Register.E
      | 0x4 => some Register.H
      | 0x5 => some Register.L
      | 0x6 => some Register.HL
      | 0x7 => some Register.A
      | _ => none).map fun r =>
      .LogicalAndOnAccumulatorAndRegister r (opcode == 0xA6))
  else if opcode = 0xE6 then
    readU8 m fun value m2 => (.ok (.LogicalAndOnAccumulatorAndOneByte value), m2)
  else if 0xA8 ≤ opcode ∧ opcode ≤ 0xAF then
    emit m ((match opcode &&& 0xF with
      | 0x8 => some Register.B
      | 0x9 => some Register.C
      | 0xA => some Register.D
      | 0xB => some Register.E
      | 0xC => some Register.H
      | 0xD => some Register.L
      | 0xE => some Register.HL
      | 0xF => some Register.A
      | _ => none).map fun r =>
      .LogicalXorOnAccumulatorAndRegister r (opcode == 0xAE))
  else if opcode = 0xEE then
    readU8 m fun value m2 => (.ok (.LogicalXorOnAccumulatorAndOneByte value), m2)
  else if 0xB0 ≤ opcode ∧ opcode ≤ 0xB7 then
    emit m ((match opcode &&& 0xF with
      | 0x0 => some Register.B
      | 0x1 => some Register.C
      | 0x2 => some Register.D
      | 0x3 => some Register.E
      | 0x4 => some Register.H
      | 0x5 => some Register.L
      | 0x6 => some Register.HL
      | 0x7 => some Register.A
      | _ => none).map fun r =>
      .LogicalOrOnAccumulatorAndRegister r (opcode == 0xB6))
  else if opcode = 0xF6 then
    readU8 m fun value m2 => (.ok (.LogicalOrOnAccumulatorAndOneByte value), m2)
  else if 0xB8 ≤ opcode ∧ opcode ≤ 0xBF then
    emit m ((match opcode &&& 0xF with
      | 0x8 => some Register.B
      | 0x9 => some Register.C
      | 0xA => some Register.D
      | 0xB => some Register.E
      | 0xC => some Register.H
      | 0xD => some Register.L
      | 0xE => some Register.HL
      | 0xF => some Register.A
      | _ => none).map fun r =>
      .CompareAccumulatorAndRegister r (opcode == 0xBE))
  else if opcode = 0xFE then
    readU8 m fun value m2 => (.ok (.CompareAccumulatorAndOneByte value), m2)
  else if opcode = 0xC1 ∨ opcode = 0xD1 ∨ opcode = 0xE1 ∨ opcode = 0xF1 then
    emit m ((match opcode >>> 4 with
      | 0xC => some Register.BC
      | 0xD => some Register.DE
      | 0xE => some Register.HL
      | 0xF => some Register.AF
      | _ => none).map fun r => .PopValueFromStackIntoRegister r)
  else if opcode = 0xC5 ∨ opcode = 0xD5 ∨ opcode = 0xE5 ∨ opcode = 0xF5 then
    emit m ((match opcode >>> 4 with
      | 0xC => some Register.BC
      | 0xD => some Register.DE
      | 0xE => some Register.HL
      | 0xF => some Register.AF
      | _ => none).map fun r => .PushValueOfRegisterOntoStack r)
  else if opcode = 0xE0 then
    readU8 m fun low m2 =>
      (.ok (.StoreAccumulatorInMemory ((0xFF <<< 8) ||| low)), m2)
  else if opcode = 0xEA then
    readU16BE m fun address m2 => (.ok (.StoreAccumulatorInMemory address), m2)
  else if opcode = 0xF0 then
    readU8 m fun low m2 =>
      (.ok (.LoadAccumulatorFromMemory ((0xFF <<< 8) ||| low)), m2)
  else if opcode = 0xFA then
    readU16BE m fun address m2 => (.ok (.LoadAccumulatorFromMemory address), m2)
  else if opcode = 0xE2 then (.ok .StoreAccumulatorInMemorySpecifiedByRegisterC, m)
  else if opcode = 0xF2 then (.ok .LoadAccumulatorFromMemorySpecifiedByRegisterC, m)
  else if opcode = 0x08 then
    readU16BE m fun address m2 => (.ok (.StoreStackPointerInMemory address), m2)
  else if opcode = 0xF9 then (.ok .StoreContentOfRegisterHLInStackPointer, m)
  else if opcode = 0xE8 then (.ok .AddValueToStackPointer, m)
  else if opcode = 0xF8 then (.ok .AddValueToStackPointerAndStoreResultInRegisterHL, m)
  else if opcode = 0xCB then (.error .unknown16BitOpcode, m)
  else (.error .unknown8BitOpcode, m)

/-- Instruction::decode: read one opcode byte from the cursor and dispatch
on it. -/
def decode (memory : Cursor) : DecodeResult × Cursor :=
  readU8 memory fun opcode m => decodeOpcode opcode m

/-- Decoding a stream whose first byte is a starts by consuming that byte
and then dispatches on it. -/
theorem decode_cons (a : Nat) (l : List Nat) :
    decode ⟨a :: l, 0⟩ = decodeOpcode a ⟨a :: l, 1⟩ := by
  simp [decode, readU8, read_u8]

/-- The opcode bytes whose match arm fetches a two-byte (big-endian)
immediate operand: the LoadTwoBytes group, StoreStackPointerInMemory, the
absolute jumps, the calls, and the two absolute accumulator loads. -/
def twoByteImmediateOpcodes : List Nat :=
  [0x01, 0x08, 0x11, 0x21, 0x31, 0xC2, 0xC3, 0xC4, 0xCA, 0xCC, 0xCD,
   0xD2, 0xD4, 0xDA, 0xDC, 0xEA, 0xFA]

/-- The opcode bytes that reach the final wildcard arm of the match: the
unimplemented add-with-carry and subtract-with-carry register rows and the
eleven holes of the base table. -/
def unmatchedOpcodes : List Nat :=
  [0x88, 0x89, 0x8A, 0x8B, 0x8C, 0x8D, 0x8E, 0x8F,
   0x98, 0x99, 0x9A, 0x9B, 0x9C, 0x9D, 0x9E, 0x9F,
   0xD3, 0xDB, 0xDD, 0xE3, 0xE4, 0xEB, 0xEC, 0xED, 0xF4, 0xFC, 0xFD]

/-- The 16-bit immediate field of a decoded instruction, when its variant
carries one. -/
def imm16 : Instruction → Option Nat
  | .AbsoluteJump a => some a
  | .AbsoluteJumpIfFlagIsZero _ a => some a
  | .AbsoluteJumpIfFlagIsOne _ a => some a
  | .Call a => some a
  | .CallIfFlagIsZero _ a => some a
  | .CallIfFlagIsOne _ a => some a
  | .LoadTwoBytesOfDataIntoRegister d _ => some d
  | .StoreAccumulatorInMemory a => some a
  | .LoadAccumulatorFromMemory a => some a
  | .StoreStackPointerInMemory a => some a
  | _ => none

/-- The 16-bit immediate field of a successful decode outcome. -/
def resultImm16 : DecodeResult → Option Nat
  | .ok i => imm16 i
  | .error _ => none
  | .panic => none

set_option maxRecDepth 100000 in
/-- Claim C1: the claim asks that no opcode byte reaches an unreachable
branch; on the code, with two trailing bytes available, the decode of
opcode b ends in the panic outcome exactly when b is 0x12, 0x22 or 0x32,
because those arms match the masked value opcode AND 0xF0 (0x10, 0x20,
0x30) against the nibble patterns 0x1, 0x2, 0x3.  So three opcode bytes do
panic, refuting the claim for them and establishing it for the other 253. -/
theorem C1_panic_exactly_on_0x12_0x22_0x32 :
    ∀ b : Nat, b < 256 →
      (((decode ⟨[b, 0, 0], 0⟩).fst = DecodeResult.panic) ↔
        (b = 0x12 ∨ b = 0x22 ∨ b = 0x32)) := by decide

theorem C1_panic_exactly_on_0x12_0x22_0x32_witness :
    ((decode ⟨[0x12, 0, 0], 0⟩).fst = DecodeResult.panic) ↔
      ((0x12 : Nat) = 0x12 ∨ (0x12 : Nat) = 0x22 ∨ (0x12 : Nat) = 0x32) :=
  C1_panic_exactly_on_0x12_0x22_0x32 0x12 (by decide)

/-- Claim C2: in the 0x40 to 0x7F load block the code resolves the source
register from the low nibble and the destination from the high nibble with
the low-half versus high-half split, marks the source as a memory address
exactly on column 0x6 or 0xE, and special-cases 0x76 to Halt; but the
destination memory-address flag is set whenever the high nibble is 0x7 and
the low nibble is below 0xE, so opcodes 0x78 to 0x7D (loads into plain
register A) also get the flag, not only the 0x70 to 0x77 HL-destination
row the claim states.  The equations below evaluate the code at 0x78 and
0x7D (flag wrongly true on destination A), and at 0x70, 0x7E, 0x7F and
0x76 (behaviour as claimed). -/
theorem C2_load_block_destination_flag :
    (decode ⟨[0x78], 0⟩ =
      (DecodeResult.ok (Instruction.LoadValueOfFirstRegisterIntoSecondRegister
        Register.B Register.A false true none none), ⟨[0x78], 1⟩)) ∧
    (decode ⟨[0x7D], 0⟩ =
      (DecodeResult.ok (Instruction.LoadValueOfFirstRegisterIntoSecondRegister
        Register.L Register.A false true none none), ⟨[0x7D], 1⟩)) ∧
    (decode ⟨[0x70], 0⟩ =
      (DecodeResult.ok (Instruction.LoadValueOfFirstRegisterIntoSecondRegister
        Register.B Register.HL false true none none), ⟨[0x70], 1⟩)) ∧
    (decode ⟨[0x7E], 0⟩ =
      (DecodeResult.ok (Instruction.LoadValueOfFirstRegisterIntoSecondRegister
        Register.HL Register.A true false none none), ⟨[0x7E], 1⟩)) ∧
    (decode ⟨[0x7F], 0⟩ =
      (DecodeResult.ok (Instruction.LoadValueOfFirstRegisterIntoSecondRegister
        Register.A Register.A false false none none), ⟨[0x7F], 1⟩)) ∧
    (decode ⟨[0x76], 0⟩ = (DecodeResult.ok Instruction.Halt, ⟨[0x76], 1⟩)) :=
  ⟨rfl, rfl, rfl, rfl, rfl, rfl⟩

/-- Claim C3, counterexample: the unknown-opcode error cannot carry the
offending opcode byte, because the unmatched opcodes 0xD3 and 0xE3 produce
the very same error value, so no extraction function can return both bytes
from it. -/
theorem C3_error_cannot_carry_opcode :
    ¬ ∃ f : DecodeError → Nat,
        ∀ b : Nat, b < 256 →
          (decode ⟨[b], 0⟩).fst = DecodeResult.error DecodeError.unknown8BitOpcode →
            f DecodeError.unknown8BitOpcode = b := by
  rintro ⟨f, hf⟩
  have h1 : f DecodeError.unknown8BitOpcode = 0xD3 := hf 0xD3 (by decide) rfl
  have h2 : f DecodeError.unknown8BitOpcode = 0xE3 := hf 0xE3 (by decide) rfl
  exact absurd (h1.symm.trans h2) (by decide)

set_option maxRecDepth 100000 in
/-- Claim C3, amended: an opcode byte matches no classifier rule exactly
when it lies in unmatchedOpcodes, and there decode fails with the constant
unknown-opcode error (the fixed message Unknown 8 bit opcode), which does
not carry the offending byte. -/
theorem C3_unknown_opcode_constant_error :
    ∀ b : Nat, b < 256 →
      (((decode ⟨[b, 0, 0], 0⟩).fst =
          DecodeResult.error DecodeError.unknown8BitOpcode) ↔
        b ∈ unmatchedOpcodes) := by decide

theorem C3_unknown_opcode_constant_error_witness :
    ((decode ⟨[0xD3, 0, 0], 0⟩).fst =
        DecodeResult.error DecodeError.unknown8BitOpcode) ↔
      (0xD3 : Nat) ∈ unmatchedOpcodes :=
  C3_unknown_opcode_constant_error 0xD3 (by decide)

/-- Claim C4: for every opcode whose arm fetches a two-byte immediate,
when only one byte follows the opcode, decode fails with the
truncated-stream error and the final cursor position is the start position
plus two: the opcode byte plus the one byte successfully read before the
failure.  Shown from start position 0 and from start position 1. -/
theorem C4_truncated_two_byte_immediate (b : Nat)
    (hb : b ∈ twoByteImmediateOpcodes) (x : Nat) :
    decode ⟨[b, x], 0⟩ =
      (DecodeResult.error DecodeError.truncatedStream, ⟨[b, x], 2⟩) ∧
    decode ⟨[0x00, b, x], 1⟩ =
      (DecodeResult.error DecodeError.truncatedStream, ⟨[0x00, b, x], 3⟩) := by
  simp only [twoByteImmediateOpcodes] at hb
  fin_cases hb <;> exact ⟨rfl, rfl⟩

theorem C4_truncated_two_byte_immediate_witness :
    decode ⟨[0xCD, 0x12], 0⟩ =
      (DecodeResult.error DecodeError.truncatedStream, ⟨[0xCD, 0x12], 2⟩) ∧
    decode ⟨[0x00, 0xCD, 0x12], 1⟩ =
      (DecodeResult.error DecodeError.truncatedStream, ⟨[0x00, 0xCD, 0x12], 3⟩) :=
  C4_truncated_two_byte_immediate 0xCD (by decide) 0x12

set_option maxRecDepth 100000 in
/-- Claim C5: every stream starting with opcode 0xCB fails with the
dedicated extended-opcode error (message Unknown 16 bit opcode), which is
distinct from the generic unknown-opcode error, and no Instruction is
returned whatever bytes follow. -/
theorem C5_extended_opcode_distinct_error (rest : List Nat) :
    decode ⟨0xCB :: rest, 0⟩ =
      (DecodeResult.error DecodeError.unknown16BitOpcode, ⟨0xCB :: rest, 1⟩) ∧
    DecodeError.unknown16BitOpcode ≠ DecodeError.unknown8BitOpcode :=
  ⟨by rw [decode_cons]; rfl, by decide⟩

theorem C5_extended_opcode_distinct_error_witness :
    decode ⟨0xCB :: [0x12, 0x34], 0⟩ =
      (DecodeResult.error DecodeError.unknown16BitOpcode, ⟨0xCB :: [0x12, 0x34], 1⟩) ∧
    DecodeError.unknown16BitOpcode ≠ DecodeError.unknown8BitOpcode :=
  C5_extended_opcode_distinct_error [0x12, 0x34]

/-- Claim C6: opcode 0xE0 followed by the low byte n stores the accumulator
at address 0xFF00 OR n, opcode 0xF0 loads it from 0xFF00 OR n, each
consuming two bytes; in particular 0xE0, 0x80 gives address 0xFF80. -/
theorem C6_high_memory_page (n : Nat) (hn : n < 256) :
    decode ⟨[0xE0, n], 0⟩ =
      (DecodeResult.ok (Instruction.StoreAccumulatorInMemory (0xFF00 ||| n)),
        ⟨[0xE0, n], 2⟩) ∧
    decode ⟨[0xF0, n], 0⟩ =
      (DecodeResult.ok (Instruction.LoadAccumulatorFromMemory (0xFF00 ||| n)),
        ⟨[0xF0, n], 2⟩) ∧
    decode ⟨[0xE0, 0x80], 0⟩ =
      (DecodeResult.ok (Instruction.StoreAccumulatorInMemory 0xFF80),
        ⟨[0xE0, 0x80], 2⟩) :=
  ⟨rfl, rfl, rfl⟩

theorem C6_high_memory_page_witness :
    decode ⟨[0xE0, 0x80], 0⟩ =
      (DecodeResult.ok (Instruction.StoreAccumulatorInMemory (0xFF00 ||| 0x80)),
        ⟨[0xE0, 0x80], 2⟩) ∧
    decode ⟨[0xF0, 0x80], 0⟩ =
      (DecodeResult.ok (Instruction.LoadAccumulatorFromMemory (0xFF00 ||| 0x80)),
        ⟨[0xF0, 0x80], 2⟩) ∧
    decode ⟨[0xE0, 0x80], 0⟩ =
      (DecodeResult.ok (Instruction.StoreAccumulatorInMemory 0xFF80),
        ⟨[0xE0, 0x80], 2⟩) :=
  C6_high_memory_page 0x80 (by decide)

set_option maxRecDepth 100000 in
set_option maxHeartbeats 4000000 in
/-- Claim C7: every opcode with a two-byte immediate assembles it
big-endian: the first trailing byte becomes bits 15..8 and the second bits
7..0, with three bytes consumed; in particular 0xCD, 0x12, 0x34 decodes to
Call 0x1234. -/
theorem C7_big_endian_immediate :
    (∀ b : Nat, b ∈ twoByteImmediateOpcodes → ∀ hi lo : Nat,
      resultImm16 (decode ⟨[b, hi, lo], 0⟩).fst = some ((hi <<< 8) ||| lo) ∧
      (decode ⟨[b, hi, lo], 0⟩).snd = ⟨[b, hi, lo], 3⟩) ∧
    decode ⟨[0xCD, 0x12, 0x34], 0⟩ =
      (DecodeResult.ok (Instruction.Call 0x1234), ⟨[0xCD, 0x12, 0x34], 3⟩) := by
  refine ⟨fun b hb hi lo => ?_, rfl⟩
  simp only [twoByteImmediateOpcodes] at hb
  fin_cases hb <;> rw [decode_cons] <;> exact ⟨rfl, rfl⟩

theorem C7_big_endian_immediate_witness :
    resultImm16 (decode ⟨[0xC3, 0xAB, 0xCD], 0⟩).fst =
      some ((0xAB <<< 8) ||| 0xCD) ∧
    (decode ⟨[0xC3, 0xAB, 0xCD], 0⟩).snd = ⟨[0xC3, 0xAB, 0xCD], 3⟩ :=
  C7_big_endian_immediate.1 0xC3 (by decide) 0xAB 0xCD

/-- Claim C8: opcode 0x10 consumes exactly one following byte besides the
opcode and returns the field-less Stop instruction whatever that byte is,
and fails with the truncated-stream error when the byte is absent, the
cursor then standing right after the opcode. -/
theorem C8_stop_consumes_padding_byte :
    (∀ x : Nat, decode ⟨[0x10, x], 0⟩ =
      (DecodeResult.ok Instruction.Stop, ⟨[0x10, x], 2⟩)) ∧
    decode ⟨[0x10], 0⟩ =
      (DecodeResult.error DecodeError.truncatedStream, ⟨[0x10], 1⟩) :=
  ⟨fun _ => rfl, rfl⟩

/-- Claim C9: the eight restart opcodes decode to Reset with the small
index ((high nibble minus 0xC) times 2) for the 0x.7 column and that value
plus one for the 0x.F column: the eight distinct values 0 to 7, not the
hardware restart addresses. -/
theorem C9_reset_locations :
    decode ⟨[0xC7], 0⟩ = (DecodeResult.ok (Instruction.Reset 0), ⟨[0xC7], 1⟩) ∧
    decode ⟨[0xCF], 0⟩ = (DecodeResult.ok (Instruction.Reset 1), ⟨[0xCF], 1⟩) ∧
    decode ⟨[0xD7], 0⟩ = (DecodeResult.ok (Instruction.Reset 2), ⟨[0xD7], 1⟩) ∧
    decode ⟨[0xDF], 0⟩ = (DecodeResult.ok (Instruction.Reset 3), ⟨[0xDF], 1⟩) ∧
    decode ⟨[0xE7], 0⟩ = (DecodeResult.ok (Instruction.Reset 4), ⟨[0xE7], 1⟩) ∧
    decode ⟨[0xEF], 0⟩ = (DecodeResult.ok (Instruction.Reset 5), ⟨[0xEF], 1⟩) ∧
    decode ⟨[0xF7], 0⟩ = (DecodeResult.ok (Instruction.Reset 6), ⟨[0xF7], 1⟩) ∧
    decode ⟨[0xFF], 0⟩ = (DecodeResult.ok (Instruction.Reset 7), ⟨[0xFF], 1⟩) :=
  ⟨rfl, rfl, rfl, rfl, rfl, rfl, rfl, rfl⟩

/-- Claim C10: decode is deterministic and history-free: it is a pure
function of the cursor, so two cursors agreeing on buffer contents and
position produce equal outcomes and equal final cursors; no other state
exists for a prior call to leave behind. -/
theorem C10_decode_deterministic (c₁ c₂ : Cursor)
    (hdata : c₁.data = c₂.data) (hpos : c₁.pos = c₂.pos) :
    decode c₁ = decode c₂ := by
  cases c₁ with
  | mk d₁ p₁ =>
    cases c₂ with
    | mk d₂ p₂ =>
      have hd : d₁ = d₂ := hdata
      have hp : p₁ = p₂ := hpos
      subst hd
      subst hp
      rfl

theorem C10_decode_deterministic_witness :
    decode ⟨[0x00, 0x76], 0⟩ = decode ⟨[0x00, 0x76], 0⟩ :=
  C10_decode_deterministic ⟨[0x00, 0x76], 0⟩ ⟨[0x00, 0x76], 0⟩ rfl rfl

end Oni
